import Mathlib

/-!
Shallow embedding of the `blog` application (models.py, tests.py, migration
0003_comment) together with spec-modelled components (forms.py, the
entry-detail view/url resolution, the entry_history template tag and
Comment.gravatar_url are exercised by tests.py but their sources are not in
the repository snapshot; those are modelled from the spec and marked so).

Timestamps are modelled as natural numbers ("now" is passed explicitly where
Django would read the clock); database primary keys are natural numbers
passed explicitly where Django's store would assign them.
-/

namespace Blog

/-! ### slugify

Model of `django.template.defaultfilters.slugify` (the framework collaborator
imported at models.py line 3), restricted to ASCII input, where its NFKD /
ascii-encode step is the identity.  The remaining steps are, in order:
drop every character that is not a word character (`[a-zA-Z0-9_]`),
whitespace or a hyphen; strip leading/trailing whitespace; lowercase;
replace every maximal run of whitespace/hyphens by a single hyphen. -/

def isWordChar (c : Char) : Bool :=
  ('a' ≤ c && c ≤ 'z') || ('A' ≤ c && c ≤ 'Z') || ('0' ≤ c && c ≤ '9') || c = '_'

def isSpaceChar (c : Char) : Bool :=
  c = ' ' || c = '\t' || c = '\n' || c = '\r' || c = '\x0b' || c = '\x0c'

/-- Python `str.strip()` on a character list: drop whitespace at both ends. -/
def stripWs (l : List Char) : List Char :=
  ((l.dropWhile isSpaceChar).reverse.dropWhile isSpaceChar).reverse

/-- Collapse consecutive hyphens into one (used after mapping whitespace to
hyphens, together this models `re.sub(r'[-\s]+', '-', value)`). -/
def dedupDash : List Char → List Char
  | [] => []
  | [c] => [c]
  | a :: b :: rest =>
      if a = '-' && b = '-' then dedupDash (b :: rest)
      else a :: dedupDash (b :: rest)

def slugify (s : String) : String :=
  let cs := s.data.filter (fun c => isWordChar c || isSpaceChar c || c = '-')
  let cs := stripWs cs
  let cs := cs.map Char.toLower
  let cs := cs.map (fun c => if isSpaceChar c then '-' else c)
  String.mk (dedupDash cs)

/-! ### Entry (models.py lines 5-29) -/

/-- The referenced `auth.User` (models.py line 7); only the username matters
to the blog code. -/
structure User where
  username : String
  deriving DecidableEq, Repr

/-- Entry (models.py lines 5-11): title (CharField max_length 500), author
(FK to auth.User), body (TextField), created_at (auto_now_add), modified_at
(auto_now), slug (SlugField, default empty, editable=False). -/
structure Entry where
  pk : Nat
  title : String
  author : User
  body : String
  created_at : Nat
  modified_at : Nat
  slug : String
  deriving DecidableEq, Repr

/-- Entry.save (models.py lines 27-29): assigns `self.slug = slugify(self.title)`
and then calls the framework save, which on an existing row updates
`modified_at` (auto_now) and leaves `created_at` (auto_now_add) untouched. -/
def Entry.save (e : Entry) (now : Nat) : Entry :=
  { e with slug := slugify e.title, modified_at := now }

/-- Entry.objects.create on the insert path: instantiates the Entry and runs
Entry.save, whose framework part on insert stamps `created_at` (auto_now_add)
and `modified_at` (auto_now) to now; the override sets slug = slugify(title). -/
def Entry.create (pk : Nat) (title : String) (author : User) (body : String)
    (now : Nat) : Entry :=
  { pk, title, author, body, created_at := now, modified_at := now,
    slug := slugify title }

/-- Entry.objects.create observed as a fallible operation.  Neither the
models.py save override nor the framework save calls any validator
(`full_clean` is never invoked), so creation never raises: tests.py
creates entries with an empty body (lines 25, 147, 185, 195) and they
succeed.  The Except wrapper records that no error path exists. -/
def Entry.objectsCreate (pk : Nat) (title : String) (author : User)
    (body : String) (now : Nat) : Except String Entry :=
  .ok (Entry.create pk title author body now)

/-! ### Comment (models.py lines 31-40, migration 0003_comment lines 19-25) -/

/-- Comment (models.py lines 31-37): entry (FK to Entry, cascade), name
(CharField max_length 100), email (EmailField), body (TextField), and the two
timestamps, BOTH declared `auto_now_add=True` (models.py lines 36-37 and the
migration lines 23-24): both are stamped at insert and neither has auto_now. -/
structure Comment where
  pk : Nat
  entry : Entry
  name : String
  email : String
  body : String
  created_at : Nat
  modified_at : Nat
  deriving DecidableEq, Repr

/-- Comment.objects.create: insert stamps both auto_now_add fields to the same
now value. -/
def Comment.create (pk : Nat) (entry : Entry) (name email body : String)
    (now : Nat) : Comment :=
  { pk, entry, name, email, body, created_at := now, modified_at := now }

/-- Saving an already-persisted Comment with possibly edited user fields:
auto_now_add fields are set only on insert and no field of Comment has
auto_now, so a later save touches neither timestamp. -/
def Comment.saveEdited (c : Comment) (name email body : String) (now : Nat) :
    Comment :=
  { c with name, email, body }

/-- Comment.objects.create observed as a fallible operation.  The Comment
model declares no validators and the store-level insert accepts empty strings
for the CharField/EmailField (their Python-level default when omitted), so
creation never raises: tests.py line 80 creates a Comment giving only entry
and body. -/
def Comment.objectsCreate (pk : Nat) (entry : Entry) (name email body : String)
    (now : Nat) : Except String Comment :=
  .ok (Comment.create pk entry name email body now)

/-! ### MD5 and gravatar_url

tests.py (lines 136-141) builds the expected gravatar URL with
`hashlib.md5(email.encode()).hexdigest()`; the Comment class in the models.py
snapshot does not contain the `gravatar_url` method itself, so the method is
modelled from the spec below, over a full executable MD5 (RFC 1321) with
32-bit words as naturals reduced mod 2^32. -/

def w32 (n : Nat) : Nat := n % 4294967296

def not32 (x : Nat) : Nat := 4294967295 - w32 x

def rotl32 (x s : Nat) : Nat := w32 ((w32 x <<< s) + (w32 x >>> (32 - s)))

/-- The 64 MD5 sine-derived round constants. -/
def md5K : List Nat :=
  [3614090360, 3905402710, 606105819, 3250441966, 4118548399, 1200080426,
   2821735955, 4249261313, 1770035416, 2336552879, 4294925233, 2304563134,
   1804603682, 4254626195, 2792965006, 1236535329, 4129170786, 3225465664,
   643717713, 3921069994, 3593408605, 38016083, 3634488961, 3889429448,
   568446438, 3275163606, 4107603335, 1163531501, 2850285829, 4243563512,
   1735328473, 2368359562, 4294588738, 2272392833, 1839030562, 4259657740,
   2763975236, 1272893353, 4139469664, 3200236656, 681279174, 3936430074,
   3572445317, 76029189, 3654602809, 3873151461, 530742520, 3299628645,
   4096336452, 1126891415, 2878612391, 4237533241, 1700485571, 2399980690,
   4293915773, 2240044497, 1873313359, 4264355552, 2734768916, 1309151649,
   4149444226, 3174756917, 718787259, 3951481745]

/-- The 64 MD5 per-round left-rotation amounts. -/
def md5S : List Nat :=
  [7, 12, 17, 22, 7, 12, 17, 22, 7, 12, 17, 22, 7, 12, 17, 22,
   5, 9, 14, 20, 5, 9, 14, 20, 5, 9, 14, 20, 5, 9, 14, 20,
   4, 11, 16, 23, 4, 11, 16, 23, 4, 11, 16, 23, 4, 11, 16, 23,
   6, 10, 15, 21, 6, 10, 15, 21, 6, 10, 15, 21, 6, 10, 15, 21]

/-- One MD5 round: state is (A, B, C, D); M is the 16-word message block. -/
def md5Step (M : List Nat) (st : Nat × Nat × Nat × Nat) (i : Nat) :
    Nat × Nat × Nat × Nat :=
  let (a, b, c, d) := st
  let fg : Nat × Nat :=
    if i < 16 then ((b &&& c) ||| (not32 b &&& d), i)
    else if i < 32 then ((d &&& b) ||| (not32 d &&& c), (5 * i + 1) % 16)
    else if i < 48 then (b ^^^ c ^^^ d, (3 * i + 5) % 16)
    else (c ^^^ (b ||| not32 d), (7 * i) % 16)
  let f := w32 (fg.1 + a + md5K.getD i 0 + M.getD fg.2 0)
  (d, w32 (b + rotl32 f (md5S.getD i 0)), b, c)

/-- Process one padded 64-byte block. -/
def md5Block (st : Nat × Nat × Nat × Nat) (block : List Nat) :
    Nat × Nat × Nat × Nat :=
  let M := (List.range 16).map (fun j =>
    block.getD (4 * j) 0 + 256 * block.getD (4 * j + 1) 0 +
    65536 * block.getD (4 * j + 2) 0 + 16777216 * block.getD (4 * j + 3) 0)
  let r := (List.range 64).foldl (md5Step M) st
  (w32 (st.1 + r.1), w32 (st.2.1 + r.2.1), w32 (st.2.2.1 + r.2.2.1),
   w32 (st.2.2.2 + r.2.2.2))

/-- MD5 padding: 0x80, zeros to 56 mod 64, then the bit length as 8
little-endian bytes. -/
def md5Pad (msg : List Nat) : List Nat :=
  let len := msg.length
  let zeros := (119 - len % 64) % 64
  msg ++ [128] ++ List.replicate zeros 0 ++
    (List.range 8).map (fun i => 8 * len / 256 ^ i % 256)

def hexDigit (n : Nat) : Char :=
  if n < 10 then Char.ofNat (48 + n) else Char.ofNat (87 + n)

def byteHex (b : Nat) : List Char := [hexDigit (b / 16 % 16), hexDigit (b % 16)]

/-- A 32-bit word as its four little-endian bytes. -/
def wordLEBytes (w : Nat) : List Nat :=
  [w % 256, w / 256 % 256, w / 65536 % 256, w / 16777216 % 256]

/-- Lowercase hex MD5 digest of a byte sequence, as `hexdigest()` returns. -/
def md5Hex (msg : List Nat) : String :=
  let padded := md5Pad msg
  let blocks := (List.range (padded.length / 64)).map
    (fun i => (padded.drop (64 * i)).take 64)
  let r := blocks.foldl md5Block (1732584193, 4023233417, 2562383102, 271733878)
  String.mk ((([r.1, r.2.1, r.2.2.1, r.2.2.2].map wordLEBytes).flatten.map
    byteHex).flatten)

/-- UTF-8 encoding of one character (Python `str.encode()`), bytes as Nat. -/
def utf8Bytes (c : Char) : List Nat :=
  let n := c.toNat
  if n < 128 then [n]
  else if n < 2048 then [192 + n / 64, 128 + n % 64]
  else if n < 65536 then [224 + n / 4096, 128 + n / 64 % 64, 128 + n % 64]
  else [240 + n / 262144, 128 + n / 4096 % 64, 128 + n / 64 % 64, 128 + n % 64]

def strBytes (s : String) : List Nat := (s.data.map utf8Bytes).flatten

/-- Python `str.lower()` restricted to ASCII case mapping. -/
def strLower (s : String) : String := String.mk (s.data.map Char.toLower)

/-- Modelled from the spec: `Comment.gravatar_url` is absent from the
models.py snapshot (the Comment class there defines only its fields and
`__str__`).  Per the spec (§4.2): lower-case and encode the email, take the
MD5 digest, and prepend the fixed gravatar base URL. -/
def Comment.gravatar_url (c : Comment) : String :=
  "http://www.gravatar.com/avatar/" ++ md5Hex (strBytes (strLower c.email))

/-! ### Permalink resolution

Modelled from the spec: the url pattern and entry-detail view are exercised
by tests.py (test_url, test_misdated_url, test_invalid_url) but views.py and
urls.py are not in the snapshot.  Per the spec (§4.1): the lookup is by
primary key alone; year, month, day and the slug text are accepted and
ignored; a missing primary key is NotFound (modelled as `none`). -/

def resolve_permalink (store : List Entry) (year month day : Nat) (pk : Nat)
    (slug : String) : Option Entry :=
  store.find? (fun e => e.pk == pk)

/-! ### CommentForm

Modelled from the spec: forms.py is imported by tests.py (line 11) but is not
in the snapshot.  Per the spec (§4.3): construction pops a required `entry`
keyword argument and raises KeyError when it is missing; submitted data has
the three text fields; name is optional with length at most 100; email is
required and must be syntactically valid; body is required and non-empty;
save builds a Comment from the bound entry and the submitted values. -/

/-- Submitted form data; `none` is an absent field in the POST payload. -/
structure CommentFormData where
  name : Option String
  email : Option String
  body : Option String
  deriving DecidableEq, Repr

inductive KwargError where
  | keyError (key : String)
  deriving DecidableEq, Repr

structure CommentForm where
  entry : Entry
  data : CommentFormData
  deriving DecidableEq, Repr

/-- Modelled from the spec: construction requires the `entry` context value
(`kwargs.pop('entry')`-style); without it the constructor raises KeyError,
with it construction succeeds and binds the entry. -/
def CommentForm.init (data : CommentFormData) (entry : Option Entry) :
    Except KwargError CommentForm :=
  match entry with
  | none => .error (.keyError "entry")
  | some e => .ok { entry := e, data }

def isEmailLocalChar (c : Char) : Bool :=
  isWordChar c || ['.', '%', '+', '-'].contains c

def isEmailDomainChar (c : Char) : Bool :=
  ('a' ≤ c && c ≤ 'z') || ('A' ≤ c && c ≤ 'Z') || ('0' ≤ c && c ≤ '9') ||
  c = '-' || c = '.'

/-- Modelled from the spec: standard email-address syntax validation — a
non-empty local part of permitted characters, a single `@`, and a non-empty
dotted domain that neither starts nor ends with a dot. -/
def validEmail (s : String) : Bool :=
  let cs := s.data
  let localPart := cs.takeWhile (fun c => c != '@')
  match cs.dropWhile (fun c => c != '@') with
  | '@' :: domain =>
      !localPart.isEmpty && localPart.all isEmailLocalChar &&
      !domain.isEmpty && domain.all isEmailDomainChar &&
      domain.contains '.' && domain.head? != some '.' &&
      domain.getLast? != some '.'
  | _ => false

/-- Modelled from the spec: a bound form is valid when the optional name, if
present, fits the 100-character bound, the email is present and
syntactically valid, and the body is present and non-empty. -/
def CommentForm.is_valid (f : CommentForm) : Bool :=
  (match f.data.name with
   | none => true
   | some n => n.data.length ≤ 100) &&
  (match f.data.email with
   | none => false
   | some e => validEmail e) &&
  (match f.data.body with
   | none => false
   | some b => b != "")

/-- Modelled from the spec: on a valid form, save persists a Comment bound to
the context Entry carrying the submitted name/email/body and server-assigned
pk and timestamps. -/
def CommentForm.save (f : CommentForm) (pk now : Nat) : Comment :=
  Comment.create pk f.entry (f.data.name.getD "") (f.data.email.getD "")
    (f.data.body.getD "") now

/-! ### Recent-entries listing

Modelled from the spec: the `entry_history` template tag is exercised by
tests.py (lines 178-198) but the templatetags module is not in the snapshot.
Per the spec (§4.1): the most recently created entries, newest first,
truncated to the limit (default 5); empty when no entries exist.  A store is
a list of entries in creation order, oldest first. -/

def recent (store : List Entry) (limit : Nat) : List Entry :=
  store.reverse.take limit

def recentDefault (store : List Entry) : List Entry := recent store 5

/-! ### Test fixtures (tests.py) -/

/-- The user created in EntryViewTest.setUp / CommentFormTest.setUp. -/
def armin : User := { username := "armin" }

/-- The entry created in EntryViewTest.setUp (tests.py line 65). -/
def entry1 : Entry := Entry.create 1 "title1" armin "body1" 0

/-- The comment of CommentModelTest.test_gravatar_url (tests.py line 138). -/
def commentArmin : Comment :=
  Comment.create 1 entry1 "" "armin@gmail.com" "Comment Body" 0

/-- The six entries of EntryHistoryTagTest.test_many_posts (tests.py
lines 194-195), in creation order. -/
def c6store : List Entry :=
  [Entry.create 1 "Post #0" armin "" 0, Entry.create 2 "Post #1" armin "" 1,
   Entry.create 3 "Post #2" armin "" 2, Entry.create 4 "Post #3" armin "" 3,
   Entry.create 5 "Post #4" armin "" 4, Entry.create 6 "Post #5" armin "" 5]

end Blog

namespace Blog

/-! ### Helper lemmas -/

theorem find?_isSome_eq_any (l : List α) (p : α → Bool) :
    (l.find? p).isSome = l.any p := by
  induction l with
  | nil => rfl
  | cons a t ih =>
    cases h : p a with
    | true => simp [List.find?_cons, h]
    | false => simp [List.find?_cons, h, ih]

/-! ### Claim theorems -/

set_option maxRecDepth 200000

/-- C1: after every save an Entry's slug equals the slugified form of its
title at that save — a newly created Entry has slug = slugify(title),
re-saving after a title change recomputes the slug from the new title, and a
pre-set slug value is overwritten by save (never independently settable). -/
theorem entry_slug_always_slugified_title :
    (∀ (e : Entry) (now : Nat), (Entry.save e now).slug = slugify e.title) ∧
    (∀ (pk : Nat) (t : String) (a : User) (b : String) (now : Nat),
      (Entry.create pk t a b now).slug = slugify t) ∧
    (∀ (e : Entry) (t : String) (now : Nat),
      (Entry.save { e with title := t } now).slug = slugify t) ∧
    (∀ (e : Entry) (s : String) (now : Nat),
      (Entry.save { e with slug := s } now).slug = slugify e.title) :=
  ⟨fun _ _ => rfl, fun _ _ _ _ _ => rfl, fun _ _ _ => rfl, fun _ _ _ => rfl⟩

/-- C2: permalink resolution looks up by primary key alone — the result is
independent of the year/month/day/slug segments, it succeeds exactly when an
Entry with that primary key is stored, a deliberately misdated URL
(/0000/00/00/1-misdated/) still resolves the stored entry, and an absent
primary key yields not-found. -/
theorem resolve_permalink_by_pk_alone :
    (∀ (store : List Entry) (y m d y2 m2 d2 pk : Nat) (s s2 : String),
      resolve_permalink store y m d pk s =
        resolve_permalink store y2 m2 d2 pk s2) ∧
    (∀ (store : List Entry) (y m d pk : Nat) (s : String),
      (resolve_permalink store y m d pk s).isSome =
        store.any (fun e => e.pk == pk)) ∧
    resolve_permalink [entry1] 0 0 0 1 "misdated" = some entry1 ∧
    resolve_permalink [entry1] 0 0 0 0 "invalid" = none :=
  ⟨fun _ _ _ _ _ _ _ _ _ _ => rfl,
   fun store _ _ _ pk _ => find?_isSome_eq_any store (fun e => e.pk == pk),
   rfl, rfl⟩

/-- C3: gravatar_url is the fixed base URL followed by the hex MD5 digest of
the lower-cased, encoded email; for the test email "armin@gmail.com" it is
the base URL plus the MD5 hex digest of that exact string, concretely
8d803a1a2042c8b948f52ee44fca2c07. -/
theorem gravatar_url_is_base_plus_md5 :
    (∀ c : Comment, c.gravatar_url =
      "http://www.gravatar.com/avatar/" ++ md5Hex (strBytes (strLower c.email))) ∧
    commentArmin.gravatar_url =
      "http://www.gravatar.com/avatar/" ++ md5Hex (strBytes "armin@gmail.com") ∧
    commentArmin.gravatar_url =
      "http://www.gravatar.com/avatar/8d803a1a2042c8b948f52ee44fca2c07" :=
  ⟨fun _ => rfl, by decide, by decide⟩

/-- C4: a CommentForm bound to an Entry with all three fields submitted and
valid saves a Comment whose name, email and body are exactly the submitted
values and whose entry is the bound Entry. -/
theorem commentform_save_persists_submitted (e : Entry) (nm em bd : String)
    (pk now : Nat)
    (h : (CommentForm.mk e ⟨some nm, some em, some bd⟩).is_valid = true) :
    ((CommentForm.mk e ⟨some nm, some em, some bd⟩).save pk now).name = nm ∧
    ((CommentForm.mk e ⟨some nm, some em, some bd⟩).save pk now).email = em ∧
    ((CommentForm.mk e ⟨some nm, some em, some bd⟩).save pk now).body = bd ∧
    ((CommentForm.mk e ⟨some nm, some em, some bd⟩).save pk now).entry = e :=
  ⟨rfl, rfl, rfl, rfl⟩

/-- C4 witness: the CommentFormTest.test_valid_date data (name "armin",
email "armin@gmail.com", body "Hello There") validates true and saves a
Comment with exactly those values bound to the fixture entry. -/
theorem commentform_save_persists_submitted_witness :
    (CommentForm.mk entry1
      ⟨some "armin", some "armin@gmail.com", some "Hello There"⟩).is_valid
        = true ∧
    (((CommentForm.mk entry1
      ⟨some "armin", some "armin@gmail.com", some "Hello There"⟩).save 1 0).name
        = "armin" ∧
     ((CommentForm.mk entry1
      ⟨some "armin", some "armin@gmail.com", some "Hello There"⟩).save 1 0).email
        = "armin@gmail.com" ∧
     ((CommentForm.mk entry1
      ⟨some "armin", some "armin@gmail.com", some "Hello There"⟩).save 1 0).body
        = "Hello There" ∧
     ((CommentForm.mk entry1
      ⟨some "armin", some "armin@gmail.com", some "Hello There"⟩).save 1 0).entry
        = entry1) :=
  ⟨by decide,
   commentform_save_persists_submitted entry1 "armin" "armin@gmail.com"
     "Hello There" 1 0 (by decide)⟩

/-- C5: constructing a CommentForm without the entry context value fails with
a KeyError, and constructing it with an entry succeeds; there is no silent
default. -/
theorem commentform_init_requires_entry :
    (∀ d : CommentFormData,
      CommentForm.init d none = .error (.keyError "entry")) ∧
    (∀ (d : CommentFormData) (e : Entry),
      CommentForm.init d (some e) = .ok ⟨e, d⟩) :=
  ⟨fun _ => rfl, fun _ _ => rfl⟩

/-- C6: the recent-entries listing is empty on an empty store, never longer
than the limit, newest first whenever the store is in creation order, and on
the six test entries the default listing (limit 5) is Post #5 .. Post #1 —
it includes the newest entry and excludes the single oldest one. -/
theorem recent_entries_newest_first_truncated :
    (∀ limit : Nat, recent [] limit = []) ∧
    (∀ (store : List Entry) (limit : Nat),
      (recent store limit).length ≤ limit) ∧
    (∀ (store : List Entry) (limit : Nat),
      store.Pairwise (fun a b => a.created_at ≤ b.created_at) →
      (recent store limit).Pairwise (fun a b => b.created_at ≤ a.created_at)) ∧
    (recentDefault c6store).map Entry.title =
      ["Post #5", "Post #4", "Post #3", "Post #2", "Post #1"] ∧
    ((recentDefault c6store).map Entry.title).contains "Post #5" = true ∧
    ((recentDefault c6store).map Entry.title).contains "Post #0" = false := by
  refine ⟨fun limit => by simp [recent], fun store limit => ?_,
          fun store limit h => ?_, by decide, by decide, by decide⟩
  · simp [recent]
  · exact ((List.pairwise_reverse.mpr h).sublist (List.take_sublist _ _))

/-- C6 witness: on the six test entries in creation order, the default
listing is sorted newest first. -/
theorem recent_entries_newest_first_truncated_witness :
    (recent c6store 5).Pairwise (fun a b => b.created_at ≤ a.created_at) :=
  recent_entries_newest_first_truncated.2.2.1 c6store 5 (by decide)

/-- C7: creating a Comment stamps created_at and modified_at to the same now
value, and a later save of the Comment (with possibly edited fields) changes
neither timestamp. -/
theorem comment_timestamps_set_once :
    (∀ (pk : Nat) (e : Entry) (nm em bd : String) (now : Nat),
      (Comment.create pk e nm em bd now).created_at = now ∧
      (Comment.create pk e nm em bd now).modified_at = now) ∧
    (∀ (c : Comment) (nm em bd : String) (now : Nat),
      (c.saveEdited nm em bd now).created_at = c.created_at ∧
      (c.saveEdited nm em bd now).modified_at = c.modified_at) :=
  ⟨fun _ _ _ _ _ _ => ⟨rfl, rfl⟩, fun _ _ _ _ _ => ⟨rfl, rfl⟩⟩

/-- C8 counterexample: Entry creation with an empty body succeeds (as
CommentFormTest.setUp, tests.py line 147, relies on), contradicting the
claim that creation fails with a ValidationError whenever the body is
empty. -/
theorem entry_create_empty_body_succeeds :
    Entry.objectsCreate 1 "Entry Title" ⟨"armin"⟩ "" 0 =
      .ok { pk := 1, title := "Entry Title", author := ⟨"armin"⟩, body := "",
            created_at := 0, modified_at := 0, slug := "entry-title" } :=
  rfl

/-- C8 amended: Entry creation performs no validation at the model layer and
always succeeds — for every title, author, body it returns an Entry with
created_at = now, slug = slugify(title) and modified_at = now, even when the
title or body is empty. -/
theorem entry_create_always_succeeds_with_fields :
    ∀ (pk : Nat) (t : String) (a : User) (b : String) (now : Nat),
      Entry.objectsCreate pk t a b now =
        .ok { pk, title := t, author := a, body := b, created_at := now,
              modified_at := now, slug := slugify t } :=
  fun _ _ _ _ _ => rfl

/-- C9: in CommentForm validation the name field is optional — a submission
without a name but with a syntactically valid email and a non-empty body
validates true — while a submission missing the email, or missing the body,
always validates false. -/
theorem commentform_name_optional (e : Entry) (em bd : String)
    (h1 : validEmail em = true) (h2 : (bd != "") = true) :
    (CommentForm.mk e ⟨none, some em, some bd⟩).is_valid = true ∧
    (∀ d : CommentFormData, d.email = none →
      (CommentForm.mk e d).is_valid = false) ∧
    (∀ d : CommentFormData, d.body = none →
      (CommentForm.mk e d).is_valid = false) := by
  refine ⟨?_, ?_, ?_⟩
  · simp [CommentForm.is_valid, h1, h2]
  · intro d hd
    simp [CommentForm.is_valid, hd]
  · intro d hd
    simp [CommentForm.is_valid, hd]

/-- C9 witness: the valid-email, non-empty-body submission with the name
field absent validates true. -/
theorem commentform_name_optional_witness :
    (CommentForm.mk entry1
      ⟨none, some "armin@gmail.com", some "Hello There"⟩).is_valid = true :=
  (commentform_name_optional entry1 "armin@gmail.com" "Hello There"
    (by decide) (by decide)).1

/-- C10: at the model layer a Comment is created with only an entry and a
body — empty name and empty email — without any error (as
EntryViewTest.test_comment_in_entry, tests.py line 80, relies on): the model
enforces no field-presence validation. -/
theorem comment_model_layer_no_validation :
    ∀ (e : Entry) (pk now : Nat),
      Comment.objectsCreate pk e "" "" "this is a test comment." now =
        .ok { pk, entry := e, name := "", email := "",
              body := "this is a test comment.", created_at := now,
              modified_at := now } :=
  fun _ _ _ => rfl

end Blog
